import Mathlib

/-!
Verification of the standalone frontend server (`frontend_standalone/main.go`).

The file shallowly embeds the request-scoped page-aggregation layer of the
frontend: the outbound backend calls (`/v1/models`, `/me`, `/machines`,
`/heads`), the helpers that project their responses (`getModels`,
`getModelsConfigs`, `getMe`, `getMachines`, `getHeads`), and the route
handlers that compose them into view models.  The repository contains two
build variants of the same server; functions that differ between them are
embedded twice (the token-metered variant carries a `Tm` suffix).

Modelling conventions:
* One incoming request is a pure value (`Request`); the backend's behaviour
  during that request is a pure environment (`Backend`) giving, per endpoint,
  the outcome of the outbound call as the Go helpers observe it.
* Go `float64` arithmetic is modelled by exact rationals (`ℚ`); the literal
  `0.001` becomes `1/1000`.
* Go `int` arithmetic is 64-bit and wraps; subtraction is embedded as
  `goIntSub` with an explicit `% 2 ^ 64`.
* A Go runtime panic (out-of-range slice index, nil-pointer dereference) is
  an explicit `crash` constructor: the serving layer recovers panics into a
  generic 500 error, so a crashed handler never yields a rendered page,
  a JSON view model, or a redirect.
* `json.Unmarshal` of a reply body is modelled by an `Option` of the target
  structure (`none` = malformed body; partial decoding before an unmarshal
  error is abstracted to the zero value).
* `c.Cookies(name, "")` returns `""` both for an absent cookie and for a
  cookie with an empty value; a request models the `LocalAI-Head` cookie as
  an `Option String` and the call site as `Option.getD ""`.
-/

namespace StandaloneFrontend

/-- Embeds `schema.OpenAIModel` (the two fields this frontend consumes). -/
structure OpenAIModel where
  id : String
  object : String
deriving DecidableEq, Repr

/-- Embeds `schema.ModelsDataResponse`, the `{object, data: [{id}, ...]}`
envelope returned by the backend `GET /v1/models`. -/
structure ModelsDataResponse where
  object : String
  data : List OpenAIModel
deriving DecidableEq, Repr

/-- Embeds the standalone variant's `Usage` struct (all fields Go `int`). -/
structure Usage where
  total : Int
  completion : Int
  prompt : Int
  limit : Int
  burnedTokens : Int
deriving DecidableEq, Repr

/-- Embeds the standalone variant's `Me` struct. -/
structure Me where
  username : String
  usage : Usage
  token : String
  reason : String
deriving DecidableEq, Repr

/-- Embeds the token-metered variant's `Usage` struct. -/
structure UsageTm where
  allTimeTotal : Int
  allTimeCompletion : Int
  allTimePrompt : Int
  periodTotal : Int
  periodCompletion : Int
  periodPrompt : Int
  limit : Int
deriving DecidableEq, Repr

/-- Embeds the token-metered variant's `Me` struct. -/
structure MeTm where
  username : String
  usage : UsageTm
deriving DecidableEq, Repr

/-- Embeds `MachineUsage`; the timing fields are Go `float64`, modelled by
exact rationals. -/
structure MachineUsage where
  tokensTotal : Int
  tokensCompletion : Int
  tokensPrompt : Int
  timingPrompt : ℚ
  timingCompletion : ℚ
deriving DecidableEq, Repr

/-- Embeds `Machines`; the Go `map[string]MachineUsage` is modelled as an
association list (the code transforms it pointwise, so ordering is
irrelevant to the observable result). -/
structure Machines where
  machines : List (String × MachineUsage)
  tokensTotal : Int
  worktimeTotal : ℚ
deriving DecidableEq, Repr

/-- Embeds `config.BackendConfig` restricted to the one field this frontend
populates and reads (`Name`). -/
structure BackendConfig where
  name : String
deriving DecidableEq, Repr

/-- Distinctions among the Go `error` values produced by the HTTP helpers:
`agent.Parse` failure, transport failure from `agent.Bytes`, a non-success
HTTP status, and a `json.Unmarshal` failure. -/
inductive GoErr where
  | parseErr
  | transportErr
  | badStatus (code : Nat)
  | unmarshalErr
deriving DecidableEq, Repr

/-- Outcome of one outbound backend call as the Go helper observes it:
`parseFail` models `agent.Parse` returning an error, `transportFail` models
`agent.Bytes` returning errors, and `reply status parsed` models a received
HTTP reply whose body either unmarshals into the target struct (`some`) or
is malformed (`none`). -/
inductive Call (β : Type) where
  | parseFail
  | transportFail
  | reply (status : Nat) (parsed : Option β)
deriving DecidableEq, Repr

/-- Behaviour of the backend during one request: the outcome of each of the
outbound calls the handlers may issue.  The `me` field is consumed by the
standalone variant and `meTm` by the token-metered variant. -/
structure Backend where
  models : Call ModelsDataResponse
  me : Call Me
  meTm : Call MeTm
  machines : Call Machines
  heads : Call (List String)
deriving DecidableEq, Repr

/-- One incoming request.  `authToken` and `localAIHead` are the two cookies
the frontend consumes (`none` = absent); `acceptsHtml` is the value
`c.Accepts("html")` returns (empty string = the Accept header admits no
representation matching html); `baseURL` is `laihttputils.BaseURL(c)`. -/
structure Request where
  authToken : Option String
  localAIHead : Option String
  contentType : String
  acceptsHtml : String
  baseURL : String
deriving DecidableEq, Repr

/-- Embeds `makeModelsRequest`: issues `GET /v1/models` and unmarshals the
envelope.  The HTTP status code of the reply is never inspected, exactly as
in the source. -/
def makeModelsRequest (b : Backend) : Except GoErr ModelsDataResponse :=
  match b.models with
  | .parseFail => .error .parseErr
  | .transportFail => .error .transportErr
  | .reply _ none => .error .unmarshalErr
  | .reply _ (some m) => .ok m

/-- Embeds `getModelsConfigs`: wraps each returned model identifier into a
`BackendConfig` whose `Name` is the identifier. -/
def getModelsConfigs (b : Backend) : Except GoErr (List BackendConfig) :=
  match makeModelsRequest b with
  | .error e => .error e
  | .ok resp => .ok (resp.data.map (fun v => { name := v.id }))

/-- Embeds `getModels`: projects the `ID` of each entry of the `data` array,
in order. -/
def getModels (b : Backend) : Except GoErr (List String) :=
  match makeModelsRequest b with
  | .error e => .error e
  | .ok resp => .ok (resp.data.map OpenAIModel.id)

/-- Embeds `math.Copysign x s`: the magnitude of `x` with the sign of `s`
(for `s = 0` Go's positive zero gives the positive magnitude). -/
def copysign (x s : ℚ) : ℚ :=
  if s < 0 then -|x| else |x|

/-- Embeds the Go conversion `int(f)` on a `float64`: truncation toward
zero. -/
def goTrunc (q : ℚ) : Int :=
  if 0 ≤ q then ⌊q⌋ else ⌈q⌉

/-- Embeds `round`: `int(num + math.Copysign(0.5, num))`. -/
def round (num : ℚ) : Int :=
  goTrunc (num + copysign (1 / 2) num)

/-- Embeds `toFixed`: `float64(round(num * 10^precision)) / 10^precision`. -/
def toFixed (num : ℚ) (precision : Nat) : ℚ :=
  let output : ℚ := 10 ^ precision
  ((round (num * output) : Int) : ℚ) / output

/-- Zero value of `Machines` (Go `var machinesResponse Machines`). -/
def zeroMachines : Machines :=
  { machines := [], tokensTotal := 0, worktimeTotal := 0 }

/-- Embeds `getMachines`: issues `GET /machines`; on parse error, transport
error, non-200 status or malformed body, returns the zero value together
with the error; on success converts `WorktimeTotal` and every machine's
`TimingCompletion` and `TimingPrompt` from milliseconds to seconds via
`toFixed(x * 0.001, 1)`. -/
def getMachines (b : Backend) : Machines × Option GoErr :=
  match b.machines with
  | .parseFail => (zeroMachines, some .parseErr)
  | .transportFail => (zeroMachines, some .transportErr)
  | .reply status parsed =>
    if status ≠ 200 then (zeroMachines, some (.badStatus status))
    else
      match parsed with
      | none => (zeroMachines, some .unmarshalErr)
      | some m =>
        ({ m with
            worktimeTotal := toFixed (m.worktimeTotal * (1 / 1000)) 1,
            machines := m.machines.map (fun kv =>
              (kv.1, { kv.2 with
                timingCompletion := toFixed (kv.2.timingCompletion * (1 / 1000)) 1,
                timingPrompt := toFixed (kv.2.timingPrompt * (1 / 1000)) 1 })) },
          none)

/-- Zero value of `Usage`. -/
def zeroUsage : Usage :=
  { total := 0, completion := 0, prompt := 0, limit := 0, burnedTokens := 0 }

/-- Zero value of `Me` (Go `meResponse := Me{}`). -/
def zeroMe : Me :=
  { username := "", usage := zeroUsage, token := "", reason := "" }

/-- Embeds the standalone variant's `getMe`: issues `GET /me`; on parse
error, transport error, non-200 status or malformed body returns the zero
`Me` together with the error. -/
def getMe (b : Backend) : Me × Option GoErr :=
  match b.me with
  | .parseFail => (zeroMe, some .parseErr)
  | .transportFail => (zeroMe, some .transportErr)
  | .reply status parsed =>
    if status ≠ 200 then (zeroMe, some (.badStatus status))
    else
      match parsed with
      | none => (zeroMe, some .unmarshalErr)
      | some m => (m, none)

/-- Embeds the token-metered variant's `getMe`: returns
`(Username, &Usage, nil)` on success and `("", nil, err)` on failure; the
`Option UsageTm` models the `*Usage` pointer (`none` = nil).  This variant
never inspects the HTTP status code, exactly as in the source. -/
def getMeTm (b : Backend) : String × Option UsageTm × Option GoErr :=
  match b.meTm with
  | .parseFail => ("", none, some .parseErr)
  | .transportFail => ("", none, some .transportErr)
  | .reply _ parsed =>
    match parsed with
    | none => ("", none, some .unmarshalErr)
    | some m => (m.username, some m.usage, none)

/-- Result of `getHeads` as observed by its callers.  `crash` models the Go
runtime panic raised by `heads[0]` on an empty slice; `err e` models the
`(nil, "", err)` return; `ok heads head setCookie` carries the head list,
the resolved head, and the `LocalAI-Head` response cookie written by
`c.Cookie` (if any). -/
inductive HeadsResult where
  | crash
  | err (e : GoErr)
  | ok (heads : List String) (head : String) (setCookie : Option String)
deriving DecidableEq, Repr

/-- Shared tail of both `getHeads` variants: read the `LocalAI-Head` cookie
with default `""`; if it is `""`, take `heads[0]` (a runtime panic when the
list is empty) and write it back as a response cookie; otherwise return the
cookie value unchanged with no cookie written. -/
def resolveHead (heads : List String) (cookie : Option String) : HeadsResult :=
  let head := cookie.getD ""
  if head = "" then
    match heads with
    | [] => .crash
    | h :: _ => .ok heads h (some h)
  else .ok heads head none

/-- Embeds the standalone variant's `getHeads`: issues `GET /heads`; fails
on parse error, transport error, non-200 status or malformed body; otherwise
resolves the head from the cookie and the returned list. -/
def getHeads (b : Backend) (r : Request) : HeadsResult :=
  match b.heads with
  | .parseFail => .err .parseErr
  | .transportFail => .err .transportErr
  | .reply status parsed =>
    if status ≠ 200 then .err (.badStatus status)
    else
      match parsed with
      | none => .err .unmarshalErr
      | some heads => resolveHead heads r.localAIHead

/-- Embeds the token-metered variant's `getHeads`: identical to the
standalone one except that the HTTP status code is never inspected. -/
def getHeadsTm (b : Backend) (r : Request) : HeadsResult :=
  match b.heads with
  | .parseFail => .err .parseErr
  | .transportFail => .err .transportErr
  | .reply _ parsed =>
    match parsed with
    | none => .err .unmarshalErr
    | some heads => resolveHead heads r.localAIHead

/-- View a handler has of `getHeads`: a crash aborts the handler (`none`);
an error is logged and the handler continues with `heads = nil`, `head = ""`
(the Go return values); success yields the list and the resolved head. -/
def headsView : HeadsResult → Option (List String × String)
  | .crash => none
  | .err _ => some ([], "")
  | .ok hs h _ => some (hs, h)

/-- View a handler has of `getModels` / `getModelsConfigs`: on error the Go
result slice is `nil`, which the handlers only ever measure by `len`. -/
def orEmptyList {α : Type} : Except GoErr (List α) → List α
  | .ok l => l
  | .error _ => []

/-- Embeds 64-bit wrapping `int` subtraction. -/
def goIntSub (a b : Int) : Int :=
  (a - b + 2 ^ 63) % 2 ^ 64 - 2 ^ 63

/-- Operation computing the `Balance` view-model field; every handler
inlines it as `Limit - Total` (standalone) or `Limit - PeriodTotal`
(token-metered), a Go `int` subtraction. -/
def computeBalance (limit total : Int) : Int :=
  goIntSub limit total

/-- View model built by the standalone `GET /` handler. -/
structure IndexSummary where
  baseURL : String
  username : String
  usage : Usage
  token : String
  balance : Int
  reason : String
  heads : List String
  head : String
  toBurn : Int
  machines : Machines
deriving DecidableEq, Repr

/-- View model built by the standalone `GET /settings` handler. -/
structure SettingsSummary where
  baseURL : String
  username : String
  usage : Usage
  token : String
  balance : Int
  reason : String
  heads : List String
  head : String
  contractABI : String
  contractAddress : String
  toBurn : Int
  machines : Machines
deriving DecidableEq, Repr

/-- View model built by the model-page handlers (`/chat/`, `/talk/`,
`/text2image/`, `/tts/`); `α` is `String` for the routes using `getModels`
and `BackendConfig` for the ones using `getModelsConfigs`. -/
structure PageSummary (α : Type) where
  title : String
  baseURL : String
  modelsConfig : List α
  model : String
  username : String
  usage : Usage
  balance : Int
  reason : String
  heads : List String
  head : String
deriving DecidableEq, Repr

/-- View model built by the token-metered `GET /` handler; `usage` is the
dereferenced `*Usage` pointer. -/
structure TmIndexSummary where
  title : String
  baseURL : String
  username : String
  usage : UsageTm
  balance : Int
  heads : List String
  head : String
deriving DecidableEq, Repr

/-- Outcome of one route handler.  `crash` is a Go runtime panic (recovered
by the serving layer into a generic 500, so never a page, view model or
redirect); `json` and `render` carry the view model handed to the JSON
encoder or the template engine; `redirect` carries the target location. -/
inductive HResponse (σ : Type) where
  | crash
  | json (vm : σ)
  | render (view : String) (vm : σ)
  | redirect (location : String)
deriving DecidableEq, Repr

/-- Builds the standalone `GET /` summary map (field for field as in the
handler body). -/
def mkIndexSummary (base : String) (me : Me) (machines : Machines)
    (heads : List String) (head : String) : IndexSummary :=
  { baseURL := base
    username := me.username
    usage := me.usage
    token := me.token
    balance := computeBalance me.usage.limit me.usage.total
    reason := me.reason
    heads := heads
    head := head
    toBurn := goIntSub machines.tokensTotal me.usage.burnedTokens
    machines := machines }

/-- Builds the standalone `GET /settings` summary map. -/
def mkSettingsSummary (base contractABI contractAddress : String) (me : Me)
    (machines : Machines) (heads : List String) (head : String) : SettingsSummary :=
  { baseURL := base
    username := me.username
    usage := me.usage
    token := me.token
    balance := computeBalance me.usage.limit me.usage.total
    reason := me.reason
    heads := heads
    head := head
    contractABI := contractABI
    contractAddress := contractAddress
    toBurn := goIntSub machines.tokensTotal me.usage.burnedTokens
    machines := machines }

/-- Builds a model-page summary map (shared shape of the `/chat/`, `/talk/`,
`/text2image/`, `/tts/` handler bodies). -/
def mkPageSummary {α : Type} (title base : String) (models : List α)
    (model : String) (me : Me) (heads : List String) (head : String) : PageSummary α :=
  { title := title
    baseURL := base
    modelsConfig := models
    model := model
    username := me.username
    usage := me.usage
    balance := computeBalance me.usage.limit me.usage.total
    reason := me.reason
    heads := heads
    head := head }

/-- Builds the token-metered `GET /` summary map. -/
def mkTmIndexSummary (base username : String) (usage : UsageTm)
    (heads : List String) (head : String) : TmIndexSummary :=
  { title := "LocalAI"
    baseURL := base
    username := username
    usage := usage
    balance := computeBalance usage.limit usage.periodTotal
    heads := heads
    head := head }

/-- Embeds the content-negotiation test used verbatim by the `/` and
`/settings` handlers: request content-type is `application/json`, or
`c.Accepts("html")` returned the empty string. -/
def negotiateJson (r : Request) : Bool :=
  r.contentType == "application/json" || r.acceptsHtml.length == 0

/-- Embeds the standalone `GET /` handler. -/
def indexHandler (b : Backend) (r : Request) : HResponse IndexSummary :=
  match headsView (getHeads b r) with
  | none => .crash
  | some (heads, head) =>
    let s := mkIndexSummary r.baseURL (getMe b).1 (getMachines b).1 heads head
    if negotiateJson r then .json s else .render "views/standalone_index" s

/-- Embeds the standalone `GET /settings` handler (`contractAddress` and
`contractABI` are the process-environment values captured by `API`). -/
def settingsHandler (contractAddress contractABI : String)
    (b : Backend) (r : Request) : HResponse SettingsSummary :=
  match headsView (getHeads b r) with
  | none => .crash
  | some (heads, head) =>
    let s := mkSettingsSummary r.baseURL contractABI contractAddress
      (getMe b).1 (getMachines b).1 heads head
    if negotiateJson r then .json s else .render "views/standalone_settings" s

/-- Embeds the standalone `GET /chat/` handler (default-model route). -/
def chatSlashHandler (b : Backend) (r : Request) : HResponse (PageSummary String) :=
  match headsView (getHeads b r) with
  | none => .crash
  | some (heads, head) =>
    let me := (getMe b).1
    let models := orEmptyList (getModels b)
    match models with
    | [] => .redirect r.baseURL
    | m0 :: _ =>
      .render "views/chat"
        (mkPageSummary ("LocalAI - Chat with " ++ m0) r.baseURL models m0 me heads head)

/-- Embeds the standalone `GET /talk/` handler. -/
def talkHandler (b : Backend) (r : Request) : HResponse (PageSummary String) :=
  match headsView (getHeads b r) with
  | none => .crash
  | some (heads, head) =>
    let me := (getMe b).1
    let models := orEmptyList (getModels b)
    match models with
    | [] => .redirect r.baseURL
    | m0 :: _ =>
      .render "views/talk"
        (mkPageSummary "LocalAI - Talk" r.baseURL models m0 me heads head)

/-- Embeds the standalone `GET /text2image/` handler (default-model route,
using `getModelsConfigs`). -/
def text2imageSlashHandler (b : Backend) (r : Request) : HResponse (PageSummary BackendConfig) :=
  match headsView (getHeads b r) with
  | none => .crash
  | some (heads, head) =>
    let me := (getMe b).1
    let models := orEmptyList (getModelsConfigs b)
    match models with
    | [] => .redirect r.baseURL
    | c0 :: _ =>
      .render "views/text2image"
        (mkPageSummary ("LocalAI - Generate images with " ++ c0.name)
          r.baseURL models c0.name me heads head)

/-- Embeds the standalone `GET /tts/` handler (default-model route, using
`getModelsConfigs`). -/
def ttsSlashHandler (b : Backend) (r : Request) : HResponse (PageSummary BackendConfig) :=
  match headsView (getHeads b r) with
  | none => .crash
  | some (heads, head) =>
    let me := (getMe b).1
    let models := orEmptyList (getModelsConfigs b)
    match models with
    | [] => .redirect r.baseURL
    | c0 :: _ =>
      .render "views/tts"
        (mkPageSummary ("LocalAI - Generate audio with " ++ c0.name)
          r.baseURL models c0.name me heads head)

/-- Embeds the token-metered `GET /` handler.  The summary line
`usage.Limit - usage.PeriodTotal` dereferences the `*Usage` pointer, so when
`getMe` failed (pointer nil) the handler crashes with a nil-pointer panic. -/
def tmIndexHandler (b : Backend) (r : Request) : HResponse TmIndexSummary :=
  match headsView (getHeadsTm b r) with
  | none => .crash
  | some (heads, head) =>
    match getMeTm b with
    | (_, none, _) => .crash
    | (username, some usage, _) =>
      let s := mkTmIndexSummary r.baseURL username usage heads head
      if negotiateJson r then .json s else .render "views/standalone_index" s

/-- Sample well-formed `GET /v1/models` body with two models. -/
def okModelsBody : ModelsDataResponse :=
  { object := "list", data := [{ id := "m1", object := "model" }, { id := "m2", object := "model" }] }

/-- Sample well-formed `GET /v1/models` body with an empty `data` array. -/
def emptyModelsBody : ModelsDataResponse :=
  { object := "list", data := [] }

/-- Sample usage record. -/
def okUsage : Usage :=
  { total := 30, completion := 12, prompt := 18, limit := 100, burnedTokens := 7 }

/-- Sample identity record. -/
def okMe : Me :=
  { username := "alice", usage := okUsage, token := "tok", reason := "" }

/-- Sample token-metered usage record. -/
def okUsageTm : UsageTm :=
  { allTimeTotal := 500, allTimeCompletion := 200, allTimePrompt := 300,
    periodTotal := 80, periodCompletion := 30, periodPrompt := 50, limit := 50 }

/-- Sample token-metered identity record. -/
def okMeTm : MeTm :=
  { username := "bob", usage := okUsageTm }

/-- Sample machines snapshot (timing fields in milliseconds). -/
def okMachines : Machines :=
  { machines := [("w1",
      { tokensTotal := 9, tokensCompletion := 4, tokensPrompt := 5,
        timingPrompt := 12345, timingCompletion := 500 })],
    tokensTotal := 40, worktimeTotal := 12345 }

/-- Backend environment in which every call succeeds. -/
def okBackend : Backend :=
  { models := .reply 200 (some okModelsBody)
    me := .reply 200 (some okMe)
    meTm := .reply 200 (some okMeTm)
    machines := .reply 200 (some okMachines)
    heads := .reply 200 (some ["h1", "h2"]) }

/-- Request carrying an `auth_token` cookie and a `LocalAI-Head` cookie with
value `"h2"`, accepting html. -/
def plainRequest : Request :=
  { authToken := some "t", localAIHead := some "h2", contentType := "",
    acceptsHtml := "html", baseURL := "http://frontend" }

/-- Request without a `LocalAI-Head` cookie. -/
def noCookieRequest : Request :=
  { plainRequest with localAIHead := none }

/-- Request carrying a `LocalAI-Head` cookie with the empty value. -/
def emptyCookieRequest : Request :=
  { plainRequest with localAIHead := some "" }

/-- Request declaring `application/json` as its content type. -/
def jsonRequest : Request :=
  { plainRequest with contentType := "application/json" }

/-- Environment whose `GET /heads` succeeds with an empty list. -/
def emptyHeadsBackend : Backend :=
  { okBackend with heads := .reply 200 (some []) }

/-- Environment whose `GET /heads` succeeds with a list containing the empty
string as its second head identifier. -/
def blankHeadBackend : Backend :=
  { okBackend with heads := .reply 200 (some ["h1", ""]) }

/-- Environment whose `GET /v1/models` call fails in transport. -/
def modelsFailBackend : Backend :=
  { okBackend with models := .transportFail }

/-- Environment whose `GET /v1/models` succeeds with an empty `data` array. -/
def emptyModelsBackend : Backend :=
  { okBackend with models := .reply 200 (some emptyModelsBody) }

/-- Environment whose token-metered `GET /me` call fails in transport. -/
def tmMeFailBackend : Backend :=
  { okBackend with meTm := .transportFail }

/-- Environment whose `GET /machines` call fails in transport (used to keep
sample view models free of timing arithmetic). -/
def machinesFailBackend : Backend :=
  { okBackend with machines := .transportFail }

end StandaloneFrontend

namespace StandaloneFrontend

/-- Helper: the boolean negotiation test used by the handlers agrees with the
propositional condition (content type is `application/json`, or the request
accepts no representation matching html). -/
theorem negotiateJson_iff (r : Request) :
    negotiateJson r = true ↔ (r.contentType = "application/json" ∨ r.acceptsHtml.length = 0) := by
  simp [negotiateJson]

/-- Helper: a true negotiation condition forces the boolean test. -/
theorem negotiateJson_false (r : Request)
    (hc : ¬(r.contentType = "application/json" ∨ r.acceptsHtml.length = 0)) :
    negotiateJson r = false := by
  rcases Bool.eq_false_or_eq_true (negotiateJson r) with h | h
  · exact absurd ((negotiateJson_iff r).mp h) hc
  · exact h

/-- C1: the claim states that on a successful `GET /heads` returning an empty
list, with no `LocalAI-Head` cookie, head resolution fails with a recoverable
error and falls back to an empty selection with no out-of-range access.  The
code instead indexes `heads[0]` unguarded: in both build variants `getHeads`
crashes with an out-of-range runtime panic on that exact input, so the claim
describes the intended behaviour (which the spec itself calls a latent
defect) and the code contradicts it. -/
theorem c1_getHeads_empty_list_crashes :
    getHeads emptyHeadsBackend noCookieRequest = HeadsResult.crash
  ∧ getHeadsTm emptyHeadsBackend noCookieRequest = HeadsResult.crash :=
  ⟨rfl, rfl⟩

/-- C2: the claim states that in every build variant a failed `GET /me` call
degrades to a zero-valued identity and the handler still renders.  In the
token-metered variant `getMe` returns a nil `*Usage` on failure and the `/`
handler dereferences it (`usage.Limit - usage.PeriodTotal`), so on a `/me`
transport failure the handler crashes with a nil-pointer panic instead of
producing a degraded rendered response. -/
theorem c2_tm_me_failure_crashes :
    tmIndexHandler tmMeFailBackend plainRequest = HResponse.crash :=
  rfl

/-- C3 counterexample: the claim states that a models-call failure keeps
rendering possible and that only an empty model list — not a call failure —
triggers the redirect to the site root.  In an environment whose
`GET /v1/models` call fails in transport, the `/chat/` handler responds with
the redirect and with no rendered page, refuting the claim. -/
theorem c3_models_failure_triggers_redirect :
    modelsFailBackend.models = Call.transportFail
  ∧ chatSlashHandler modelsFailBackend plainRequest = HResponse.redirect "http://frontend"
  ∧ ∀ view s, chatSlashHandler modelsFailBackend plainRequest ≠ HResponse.render view s := by
  refine ⟨rfl, rfl, ?_⟩
  intro view s h
  rw [show chatSlashHandler modelsFailBackend plainRequest
      = HResponse.redirect "http://frontend" from rfl] at h
  exact HResponse.noConfusion h

/-- C3 amended: on the default-model routes a models-call failure is
tolerated without aborting the request — the handler logs and proceeds with
a nil model list — but a nil list is empty, so the failure feeds the same
empty-list branch and the response is the redirect to the site root; only a
successful call with a non-empty list renders the model-specific page. -/
theorem c3_models_failure_redirects (b : Backend) (r : Request)
    (hs : List String) (hd : String) (e : GoErr)
    (hheads : headsView (getHeads b r) = some (hs, hd))
    (hmodels : makeModelsRequest b = Except.error e) :
    chatSlashHandler b r = HResponse.redirect r.baseURL
  ∧ talkHandler b r = HResponse.redirect r.baseURL
  ∧ text2imageSlashHandler b r = HResponse.redirect r.baseURL
  ∧ ttsSlashHandler b r = HResponse.redirect r.baseURL := by
  refine ⟨?_, ?_, ?_, ?_⟩ <;>
    simp [chatSlashHandler, talkHandler, text2imageSlashHandler, ttsSlashHandler,
      hheads, getModels, getModelsConfigs, hmodels, orEmptyList]

/-- C3 witness: in a concrete environment whose models call fails in
transport, the `/talk/` handler redirects to the site root. -/
theorem c3_witness :
    talkHandler modelsFailBackend plainRequest = HResponse.redirect "http://frontend" :=
  (c3_models_failure_redirects modelsFailBackend plainRequest ["h1", "h2"] "h2"
    GoErr.transportErr rfl rfl).2.1

/-- C4: whenever head resolution completes and the models call succeeds with
an empty `data` array, each of the four default-model routes (`/chat/`,
`/talk/`, `/text2image/`, `/tts/`) responds with a redirect to the site root
(the base URL) — not a rendered page and not a rendering error. -/
theorem c4_empty_models_redirects (b : Backend) (r : Request)
    (hs : List String) (hd : String) (md : ModelsDataResponse)
    (hheads : headsView (getHeads b r) = some (hs, hd))
    (hmodels : makeModelsRequest b = Except.ok md)
    (hempty : md.data = []) :
    chatSlashHandler b r = HResponse.redirect r.baseURL
  ∧ talkHandler b r = HResponse.redirect r.baseURL
  ∧ text2imageSlashHandler b r = HResponse.redirect r.baseURL
  ∧ ttsSlashHandler b r = HResponse.redirect r.baseURL := by
  refine ⟨?_, ?_, ?_, ?_⟩ <;>
    simp [chatSlashHandler, talkHandler, text2imageSlashHandler, ttsSlashHandler,
      hheads, getModels, getModelsConfigs, hmodels, hempty, orEmptyList]

/-- C4 witness: in a concrete environment whose models call returns an empty
`data` array, the `/tts/` handler redirects to the site root. -/
theorem c4_witness :
    ttsSlashHandler emptyModelsBackend plainRequest = HResponse.redirect "http://frontend" :=
  (c4_empty_models_redirects emptyModelsBackend plainRequest ["h1", "h2"] "h2"
    emptyModelsBody rfl rfl rfl).2.2.2

/-- C5 counterexample: the claim states that whenever the request carries a
`LocalAI-Head` cookie whose value is present in the backend's head list, the
resolved head equals the cookie value unchanged and no cookie is re-set.
With head list `["h1", ""]` and a cookie carrying the empty value — which is
present in the list — the code conflates the empty cookie with an absent one
(`c.Cookies` defaults to `""`): the resolved head is `"h1"`, different from
the cookie value, and a cookie is written. -/
theorem c5_empty_cookie_value_reset :
    emptyCookieRequest.localAIHead = some ""
  ∧ ("" ∈ ["h1", ""])
  ∧ getHeads blankHeadBackend emptyCookieRequest = HeadsResult.ok ["h1", ""] "h1" (some "h1")
  ∧ "h1" ≠ "" :=
  ⟨rfl, by decide, rfl, by decide⟩

/-- C5 amended: for a successful `GET /heads` returning a non-empty list,
if the reading of the `LocalAI-Head` cookie yields the empty string (the
cookie is absent, or carries the empty value, which the code cannot
distinguish), the resolved head is the first element of the list and a
response cookie with that value is set; if the request carries a cookie with
a non-empty value — in particular one present in the head list — the
resolved head equals the cookie value unchanged and no cookie is set. -/
theorem c5_head_resolution (b : Backend) (r : Request) (h0 : String) (t : List String)
    (hheads : b.heads = Call.reply 200 (some (h0 :: t))) :
    (r.localAIHead.getD "" = "" →
      getHeads b r = HeadsResult.ok (h0 :: t) h0 (some h0))
  ∧ (∀ v, r.localAIHead = some v → v ≠ "" →
      getHeads b r = HeadsResult.ok (h0 :: t) v none) := by
  constructor
  · intro hc
    simp [getHeads, hheads, resolveHead, hc]
  · intro v hv hne
    simp [getHeads, hheads, resolveHead, hv, hne]

/-- C5 witness: in a concrete environment with heads `["h1", "h2"]` and no
cookie, the resolved head is `"h1"` and the cookie `"h1"` is written. -/
theorem c5_witness :
    getHeads okBackend noCookieRequest = HeadsResult.ok ["h1", "h2"] "h1" (some "h1") :=
  (c5_head_resolution okBackend noCookieRequest "h1" ["h2"] rfl).1 rfl

/-- C6: for the standalone `/` and `/settings` handlers and the token-metered
`/` handler, whenever the handler completes without a runtime panic there is
a single view model `s` such that the response is the JSON serialization of
`s` exactly when the request content type is `application/json` or the
request accepts no representation matching html, and in every other case the
response is the rendered HTML template over the same view model `s`. -/
theorem c6_content_negotiated :
    (∀ b r, indexHandler b r ≠ HResponse.crash →
      ∃ s, indexHandler b r =
        if r.contentType = "application/json" ∨ r.acceptsHtml.length = 0
        then HResponse.json s else HResponse.render "views/standalone_index" s)
  ∧ (∀ ca cabi b r, settingsHandler ca cabi b r ≠ HResponse.crash →
      ∃ s, settingsHandler ca cabi b r =
        if r.contentType = "application/json" ∨ r.acceptsHtml.length = 0
        then HResponse.json s else HResponse.render "views/standalone_settings" s)
  ∧ (∀ b r, tmIndexHandler b r ≠ HResponse.crash →
      ∃ s, tmIndexHandler b r =
        if r.contentType = "application/json" ∨ r.acceptsHtml.length = 0
        then HResponse.json s else HResponse.render "views/standalone_index" s) := by
  refine ⟨?_, ?_, ?_⟩
  · intro b r hnc
    cases hv : headsView (getHeads b r) with
    | none => exact absurd (by simp [indexHandler, hv]) hnc
    | some p =>
      obtain ⟨heads, head⟩ := p
      refine ⟨mkIndexSummary r.baseURL (getMe b).1 (getMachines b).1 heads head, ?_⟩
      by_cases hc : r.contentType = "application/json" ∨ r.acceptsHtml.length = 0
      · rw [if_pos hc]
        simp [indexHandler, hv, (negotiateJson_iff r).mpr hc]
      · rw [if_neg hc]
        simp [indexHandler, hv, negotiateJson_false r hc]
  · intro ca cabi b r hnc
    cases hv : headsView (getHeads b r) with
    | none => exact absurd (by simp [settingsHandler, hv]) hnc
    | some p =>
      obtain ⟨heads, head⟩ := p
      refine ⟨mkSettingsSummary r.baseURL cabi ca (getMe b).1 (getMachines b).1 heads head, ?_⟩
      by_cases hc : r.contentType = "application/json" ∨ r.acceptsHtml.length = 0
      · rw [if_pos hc]
        simp [settingsHandler, hv, (negotiateJson_iff r).mpr hc]
      · rw [if_neg hc]
        simp [settingsHandler, hv, negotiateJson_false r hc]
  · intro b r hnc
    cases hv : headsView (getHeadsTm b r) with
    | none => exact absurd (by simp [tmIndexHandler, hv]) hnc
    | some p =>
      obtain ⟨heads, head⟩ := p
      rcases hm : getMeTm b with ⟨u, ou, oe⟩
      cases ou with
      | none => exact absurd (by simp [tmIndexHandler, hv, hm]) hnc
      | some usage =>
        refine ⟨mkTmIndexSummary r.baseURL u usage heads head, ?_⟩
        by_cases hc : r.contentType = "application/json" ∨ r.acceptsHtml.length = 0
        · rw [if_pos hc]
          simp [tmIndexHandler, hv, hm, (negotiateJson_iff r).mpr hc]
        · rw [if_neg hc]
          simp [tmIndexHandler, hv, hm, negotiateJson_false r hc]

/-- C6 witness: a concrete request with content type `application/json`
against the standalone `/` handler yields the JSON branch of the negotiated
response. -/
theorem c6_witness :
    ∃ s, indexHandler machinesFailBackend jsonRequest =
      if jsonRequest.contentType = "application/json" ∨ jsonRequest.acceptsHtml.length = 0
      then HResponse.json s else HResponse.render "views/standalone_index" s :=
  c6_content_negotiated.1 machinesFailBackend jsonRequest (by decide)

/-- C7: for every well-formed backend `/v1/models` reply whose `data` array
has length `N`, `getModels` succeeds with exactly the `N` identifiers of the
`data` entries, in the same order: the result list is the `id` projection of
`data`, has the same length, and its `i`-th element is the `id` of the
`i`-th `data` entry. -/
theorem c7_models_projection (b : Backend) (st : Nat) (resp : ModelsDataResponse)
    (h : b.models = Call.reply st (some resp)) :
    getModels b = Except.ok (resp.data.map OpenAIModel.id)
  ∧ ∀ l, getModels b = Except.ok l →
      l.length = resp.data.length ∧
      ∀ i (h1 : i < resp.data.length) (h2 : i < l.length),
        l.get ⟨i, h2⟩ = (resp.data.get ⟨i, h1⟩).id := by
  have hget : getModels b = Except.ok (resp.data.map OpenAIModel.id) := by
    simp [getModels, makeModelsRequest, h]
  refine ⟨hget, ?_⟩
  intro l hl
  rw [hget] at hl
  obtain rfl : resp.data.map OpenAIModel.id = l := Except.ok.inj hl
  constructor
  · simp
  · intro i h1 h2
    simp [List.get_eq_getElem, List.getElem_map]

/-- C7 witness: against a concrete reply with two models, `getModels`
returns exactly their identifiers in order. -/
theorem c7_witness : getModels okBackend = Except.ok ["m1", "m2"] :=
  (c7_models_projection okBackend 200 okModelsBody rfl).1

/-- C8: the `Balance` field of every view model is `computeBalance`, the
64-bit `int` subtraction `Limit - Total` (standalone summaries) or
`Limit - PeriodTotal` (token-metered summary); whenever the difference fits
in 64 bits it is the raw integer difference with no negative clamping, and
in particular `computeBalance 100 30 = 70` and `computeBalance 50 80 = -30`. -/
theorem c8_balance_unclamped :
    (∀ base me machines hs hd, (mkIndexSummary base me machines hs hd).balance
        = computeBalance me.usage.limit me.usage.total)
  ∧ (∀ base cabi ca me machines hs hd,
        (mkSettingsSummary base cabi ca me machines hs hd).balance
        = computeBalance me.usage.limit me.usage.total)
  ∧ (∀ (α : Type) (title base : String) (models : List α) (model : String) me hs hd,
        (mkPageSummary title base models model me hs hd).balance
        = computeBalance me.usage.limit me.usage.total)
  ∧ (∀ base u usage hs hd, (mkTmIndexSummary base u usage hs hd).balance
        = computeBalance usage.limit usage.periodTotal)
  ∧ (∀ limit total : Int, -(2 ^ 63) ≤ limit - total → limit - total < 2 ^ 63 →
        computeBalance limit total = limit - total)
  ∧ computeBalance 100 30 = 70
  ∧ computeBalance 50 80 = -30 := by
  refine ⟨fun _ _ _ _ _ => rfl, fun _ _ _ _ _ _ _ => rfl,
    fun _ _ _ _ _ _ _ _ => rfl, fun _ _ _ _ _ => rfl, ?_, by decide, by decide⟩
  intro limit total h1 h2
  simp only [computeBalance, goIntSub]
  omega

/-- C8 witness: at limit 100 and total 30 the balance is the raw difference. -/
theorem c8_witness : computeBalance 100 30 = 100 - 30 :=
  c8_balance_unclamped.2.2.2.2.1 100 30 (by decide) (by decide)

/-- C9: on a successful `GET /machines` reply, `getMachines` converts each of
the millisecond timing fields — `worktime_total` and every machine's
`timing_prompt` and `timing_completion` — by `toFixed (x * 0.001) 1`, which
equals `round (x * 0.001 * 10) / 10` (standard half-away-from-zero rounding
to one decimal place); in particular the millisecond value 12345 converts to
12.3.  Here Go `float64` arithmetic is modelled by exact rationals. -/
theorem c9_timing_conversion (b : Backend) (m : Machines)
    (h : b.machines = Call.reply 200 (some m)) :
    getMachines b =
      ({ machines := m.machines.map (fun kv =>
            (kv.1, { kv.2 with
              timingCompletion := toFixed (kv.2.timingCompletion * (1 / 1000)) 1,
              timingPrompt := toFixed (kv.2.timingPrompt * (1 / 1000)) 1 })),
         tokensTotal := m.tokensTotal,
         worktimeTotal := toFixed (m.worktimeTotal * (1 / 1000)) 1 }, none)
  ∧ (∀ q : ℚ, toFixed (q * (1 / 1000)) 1 = ((round (q * (1 / 1000) * 10) : Int) : ℚ) / 10)
  ∧ toFixed ((12345 : ℚ) * (1 / 1000)) 1 = 123 / 10 := by
  refine ⟨by simp [getMachines, h], ?_, ?_⟩
  · intro q
    simp [toFixed]
  · have h1 : ((12345 : ℚ) * (1 / 1000)) * 10 ^ 1 = 2469 / 20 := by norm_num
    have h2 : copysign (1 / 2) ((2469 : ℚ) / 20) = 1 / 2 := by
      rw [copysign, if_neg (by norm_num)]
      norm_num
    have h3 : goTrunc ((2469 : ℚ) / 20 + 1 / 2) = 123 := by
      rw [goTrunc, if_pos (by norm_num)]
      rw [show ((2469 : ℚ) / 20 + 1 / 2 : ℚ) = 2479 / 20 by norm_num]
      rw [Int.floor_eq_iff]
      constructor <;> norm_num
    rw [toFixed, round, h1, h2, h3]
    norm_num

/-- C9 witness: the concrete millisecond value 12345 converts to 12.3. -/
theorem c9_witness : toFixed ((12345 : ℚ) * (1 / 1000)) 1 = 123 / 10 :=
  (c9_timing_conversion okBackend okMachines rfl).2.2

/-- C10: the two model projections agree on every backend environment:
`getModelsConfigs` is exactly `getModels` with each identifier wrapped into
a `BackendConfig` name — same success or failure, same length and order, and
the `i`-th config's `Name` equals the `i`-th identifier. -/
theorem c10_configs_match_models (b : Backend) :
    getModelsConfigs b
      = Except.map (fun l => l.map (fun s => ({ name := s } : BackendConfig))) (getModels b)
  ∧ ∀ l cfgs, getModels b = Except.ok l → getModelsConfigs b = Except.ok cfgs →
      cfgs.length = l.length ∧
      ∀ i (h1 : i < cfgs.length) (h2 : i < l.length),
        (cfgs.get ⟨i, h1⟩).name = l.get ⟨i, h2⟩ := by
  have hmap : getModelsConfigs b
      = Except.map (fun l => l.map (fun s => ({ name := s } : BackendConfig))) (getModels b) := by
    rcases hb : b.models with _ | _ | ⟨st, _ | resp⟩ <;>
      simp [getModelsConfigs, getModels, makeModelsRequest, hb, Except.map]
  refine ⟨hmap, ?_⟩
  intro l cfgs hl hc
  rw [hmap, hl] at hc
  simp only [Except.map] at hc
  obtain rfl : l.map (fun s => ({ name := s } : BackendConfig)) = cfgs := Except.ok.inj hc
  constructor
  · simp
  · intro i h1 h2
    simp [List.get_eq_getElem, List.getElem_map]

/-- C10 witness: on a concrete environment with two models the configs are
the name-wrapped identifiers, with matching lengths. -/
theorem c10_witness :
    getModelsConfigs okBackend
      = Except.map (fun l => l.map (fun s => ({ name := s } : BackendConfig))) (getModels okBackend)
  ∧ ([{ name := "m1" }, { name := "m2" }] : List BackendConfig).length
      = (["m1", "m2"] : List String).length :=
  ⟨(c10_configs_match_models okBackend).1,
    ((c10_configs_match_models okBackend).2 ["m1", "m2"]
      [{ name := "m1" }, { name := "m2" }] rfl rfl).1⟩

end StandaloneFrontend
